import Mathlib

/-!
Verification development for the Lattice query-routing core.

The definitions below are shallow embeddings of the Python sources:
  * `src/decider_agent/decider_agent.py` (keyword router),
  * `src/backend/app/api/chats.py` (message pipeline: digit payload map,
    agent selection, per-handler error containment, section rendering),
  * `src/individual_agent/individual_agent.py` (tiered executor and
    deterministic fallback recommendation),
  * `src/group_task_agent/group_task_agent.py` (amount extraction and
    split hints).

Python strings are modelled through their character lists (`String.data`),
monetary floats as rationals, datetimes as rational timestamps in seconds,
and fallible effects as `Except`/`Option` values.
-/

/-- Model of Python `str.strip()`: drop whitespace from both ends. -/
def pyStrip (s : String) : String :=
  ⟨((s.data.dropWhile Char.isWhitespace).reverse.dropWhile Char.isWhitespace).reverse⟩

/-- Model of Python `str.lower()` (ASCII case folding, which covers every
string appearing in the sources and claims). -/
def pyLower (s : String) : String := ⟨s.data.map Char.toLower⟩

/-- Model of Python substring containment `needle in hay` on char lists. -/
def containsSub : List Char → List Char → Bool
  | needle, [] => needle.isEmpty
  | needle, c :: t => needle.isPrefixOf (c :: t) || containsSub needle t

/-- Containment of `term` in string `s`, as Python `term in s`. -/
def strContains (s term : String) : Bool := containsSub term.data s.data

/-- Group-coordination keyword set of `_heuristic_route`
(`src/decider_agent/decider_agent.py`, line 78). -/
def group_keywords : List String :=
  ["split", "settle", "owe", "per person", "we ", " our ", " group", "team",
   "together", "let\x27s", "lets"]

/-- Credit-advisory keyword set of `_heuristic_route`
(`src/decider_agent/decider_agent.py`, line 79). -/
def credit_keywords : List String :=
  ["credit score", "best card", "cashback", "points", "apr", "reward",
   "signup bonus"]

/-- Personal-finance keyword set of `_heuristic_route`
(`src/decider_agent/decider_agent.py`, lines 80-89). -/
def individual_keywords : List String :=
  ["should i buy", "buy now", "buying", "afford", "my spending", "my budget",
   "my transactions", "can i buy"]

/-- Python `any(term in lowered for term in terms)`. -/
def matches_any (lowered : String) (terms : List String) : Bool :=
  terms.any (fun term => strContains lowered term)

/-- Model of `_heuristic_route` (`src/decider_agent/decider_agent.py`,
lines 73-97): lowercase the message, return `"3"`/`"2"`/`"1"` on the first
keyword-set hit in the fixed order group, credit, individual; `none` when the
message is empty or nothing matches. -/
def heuristic_route (message : String) : Option String :=
  let lowered := pyLower message
  if lowered.data.isEmpty then none
  else if matches_any lowered group_keywords then some "3"
  else if matches_any lowered credit_keywords then some "2"
  else if matches_any lowered individual_keywords then some "1"
  else none

/-- Model of the deterministic part of `run_decider_agent`
(`src/decider_agent/decider_agent.py`, lines 70 and 99-101): the query is
stripped and the keyword heuristic short-circuits the generative pass.
`none` stands for the cases in which the code would fall through to the
generative classifier or the `"4"` default. -/
def run_decider_heuristic (user_query : String) : Option String :=
  heuristic_route (pyStrip user_query)

/-- Valid agent keys accepted by `create_message`
(`src/backend/app/api/chats.py`, line 163). -/
def valid_agents : List String := ["individual", "credit_score", "group_task", "conversational"]

/-- Digit-to-agents payload map of `create_message`
(`src/backend/app/api/chats.py`, lines 134-139); only the `agents` field is
modelled, the `reason` string is used for logging only. -/
def digit_payload_map : List (String × List String) :=
  [("1", ["individual"]), ("2", ["credit_score"]), ("3", ["group_task"]),
   ("4", ["conversational"])]

/-- Agent keys actually executed by the loop in `create_message`
(`src/backend/app/api/chats.py`, lines 166-168): take the first three keys
and skip the ones outside `valid_agents`. -/
def selected_agent_keys (agent_keys : List String) : List String :=
  (agent_keys.take 3).filter (fun k => valid_agents.contains k)

/-- Apology text substituted for a failed handler
(`src/backend/app/api/chats.py`, line 212). -/
def apology_text : String :=
  "I ran into an issue generating a response. Please try again later."

/-- Model of the handler loop of `create_message`
(`src/backend/app/api/chats.py`, lines 164-212): each selected key is run,
a success contributes its stripped output and an exception contributes
`apology_text`; `run` stands for the opaque per-agent invocation, with
`Except.error` standing for a raised exception. -/
def run_handlers (run : String → Except String String) (agent_keys : List String) :
    List (String × String) :=
  (selected_agent_keys agent_keys).foldl
    (fun results key =>
      results ++ [(key, match run key with
        | Except.ok output => pyStrip output
        | Except.error _ => apology_text)]) []

/-- Display names of `create_message` (`src/backend/app/api/chats.py`,
lines 217-222). -/
def display_names : List (String × String) :=
  [("conversational", "Conversational Companion"),
   ("individual", "Personal Spending Advisor"),
   ("credit_score", "Credit Score Coach"),
   ("group_task", "Group Task Assistant")]

/-- Helper for `pyTitle`: the Boolean records whether the previous character
was non-alphabetic (so the next letter is capitalised). -/
def pyTitleAux : Bool → List Char → List Char
  | _, [] => []
  | start, c :: t =>
    (if c.isAlpha then (if start then c.toUpper else c.toLower) else c) ::
      pyTitleAux (!c.isAlpha) t

/-- Model of Python `str.title()` for ASCII strings, the
`display_names.get(key, key.title())` default of line 225. -/
def pyTitle (s : String) : String := ⟨pyTitleAux true s.data⟩

/-- Section label lookup of `create_message`
(`src/backend/app/api/chats.py`, line 225). -/
def display_name (key : String) : String :=
  (display_names.lookup key).getD (pyTitle key)

/-- Section rendering of `create_message`
(`src/backend/app/api/chats.py`, lines 223-226). -/
def agent_sections (results : List (String × String)) : List String :=
  results.map (fun r => "**" ++ display_name r.1 ++ ":**\n" ++ r.2)

/-- Model of Python `sep.join(parts)`. -/
def join_sep (sep : String) : List String → String
  | [] => ""
  | [x] => x
  | x :: y :: xs => x ++ sep ++ join_sep sep (y :: xs)

/-- Composite answer text of `create_message`
(`src/backend/app/api/chats.py`, lines 214-227). -/
def agent_output (run : String → Except String String) (agent_keys : List String) : String :=
  let results := run_handlers run agent_keys
  if results.isEmpty then
    "I couldn\x27t decide which specialist to use. Try rephrasing your request!"
  else join_sep "\n\n" (agent_sections results)

/-- Greeting used when `@advisor` is called with an empty query
(`src/backend/app/api/chats.py`, line 110; the trailing characters are the
mojibake emoji present verbatim in the source file). -/
def empty_query_reply : String :=
  "Hi there! Add a question after `@advisor` so I know how to help. ðŸ™‚"

/-- Model of the AI-reply branch of `create_message`
(`src/backend/app/api/chats.py`, lines 102-227): the user content is
stripped, the `@advisor` trigger is matched case-insensitively, and the text
after the trigger is stripped into the query. `agent_keys` stands for the
`agents` list obtained from the decider payload, and `run` for the opaque
per-agent invocations. `none` means no AI reply is produced. -/
def create_message_ai_reply (content : String) (agent_keys : List String)
    (run : String → Except String String) : Option String :=
  let c := pyStrip content
  if List.isPrefixOf "@advisor".data (pyLower c).data then
    let user_query := pyStrip ⟨c.data.drop 8⟩
    some (if user_query.data.isEmpty then empty_query_reply
          else agent_output run agent_keys)
  else none

/-- Composite section list for a query on the deterministic routing path:
the stripped query is routed by the keyword heuristic, the digit is mapped
through `digit_payload_map`, and the handler loop renders one section per
selected key (`src/backend/app/api/chats.py`, lines 128-212). -/
def composite_sections (user_query : String) (run : String → Except String String) :
    Option (List (String × String)) :=
  (run_decider_heuristic user_query).map
    (fun digit =>
      run_handlers run ((digit_payload_map.lookup (pyStrip digit)).getD ["conversational"]))

/-- Rounding of `q` to the nearest integer with ties to even, the rounding
used by Python `format(x, ".2f")` on the exactly representable values that
appear in this development. -/
def roundHalfEven (q : ℚ) : ℤ :=
  let n := ⌊q⌋
  if q - n < 1/2 then n
  else if (1/2 : ℚ) < q - n then n + 1
  else if n % 2 = 0 then n else n + 1

/-- Cents of `|x|` after half-even rounding. -/
def centsOf (x : ℚ) : ℕ := (roundHalfEven (|x| * 100)).toNat

/-- Two-digit zero-padded rendering of a cents remainder. -/
def pad2 (n : ℕ) : String := if n < 10 then "0" ++ toString n else toString n

/-- Helper for thousands grouping: insert a comma after every three
characters of a reversed digit list. -/
def groupDigitsRev : List Char → List Char
  | [] => []
  | [a] => [a]
  | [a, b] => [a, b]
  | [a, b, c] => [a, b, c]
  | a :: b :: c :: d :: rest => a :: b :: c :: ',' :: groupDigitsRev (d :: rest)

/-- Decimal rendering of a natural number with thousands separators. -/
def commaGroup (n : ℕ) : String := ⟨(groupDigitsRev (toString n).data.reverse).reverse⟩

/-- Model of the Python format `f"{x:,.2f}"`: sign, comma-grouped integer
part, and two rounded decimal places. -/
def fmtComma2 (x : ℚ) : String :=
  (if x < 0 then "-" else "") ++ commaGroup (centsOf x / 100) ++ "." ++ pad2 (centsOf x % 100)

/-- Model of the Python format `f"{x:.2f}"` (also `f"{x:0.2f}"`): sign,
plain integer part, and two rounded decimal places. -/
def fmtFixed2 (x : ℚ) : String :=
  (if x < 0 then "-" else "") ++ toString (centsOf x / 100) ++ "." ++ pad2 (centsOf x % 100)

/-- Transaction record as consumed by `_build_deterministic_recommendation`
(`src/individual_agent/individual_agent.py`, lines 64-78): `dt` is the
parsed `datetime` field (`none` when missing or unparseable, which the loop
skips), `price_total` is `_safe_float(price.get("total"))`,
`payment_amounts` the safe-float `transaction_amount`s of the payment
methods, and `merchant_name` the raw `merchant.name` field. -/
structure Tx where
  dt : Option ℚ
  price_total : ℚ
  payment_amounts : List ℚ
  merchant_name : Option String

/-- Transaction amount (`src/individual_agent/individual_agent.py`,
lines 69-71): Python `or` falls through to the payment-method sum exactly
when the safe-float price total is zero. -/
def tx_amount (tx : Tx) : ℚ :=
  if tx.price_total ≠ 0 then tx.price_total else tx.payment_amounts.sum

/-- Merchant label (`src/individual_agent/individual_agent.py`, line 72):
Python `or` replaces a missing or empty name with `"Unknown merchant"`. -/
def tx_merchant (tx : Tx) : String :=
  match tx.merchant_name with
  | some s => if s.data.isEmpty then "Unknown merchant" else s
  | none => "Unknown merchant"

/-- Accumulated window sums and per-merchant totals of the fallback loop. -/
structure RecommendationStats where
  total_30 : ℚ
  total_7 : ℚ
  merchant_totals : List (String × ℚ)
deriving DecidableEq

/-- Ordered-dict update `merchant_totals[name] = get(name, 0.0) + amount`
(`src/individual_agent/individual_agent.py`, line 76): insertion order is
preserved, as for a Python dict. -/
def update_merchant_total (mts : List (String × ℚ)) (name : String) (amount : ℚ) :
    List (String × ℚ) :=
  if mts.any (fun p => p.1 == name) then
    mts.map (fun p => if p.1 == name then (p.1, p.2 + amount) else p)
  else mts ++ [(name, amount)]

/-- Loop body of `_build_deterministic_recommendation`
(`src/individual_agent/individual_agent.py`, lines 64-78). -/
def accum_tx (start_30 start_7 : ℚ) (st : RecommendationStats) (tx : Tx) :
    RecommendationStats :=
  match tx.dt with
  | none => st
  | some tx_dt =>
    let amount := tx_amount tx
    let st1 :=
      if start_30 ≤ tx_dt then
        { total_30 := st.total_30 + amount,
          total_7 := st.total_7,
          merchant_totals := update_merchant_total st.merchant_totals (tx_merchant tx) amount }
      else st
    if start_7 ≤ tx_dt then
      { total_30 := st1.total_30, total_7 := st1.total_7 + amount,
        merchant_totals := st1.merchant_totals }
    else st1

/-- Window sums of `_build_deterministic_recommendation`
(`src/individual_agent/individual_agent.py`, lines 57-78): timestamps are
rational seconds, the windows start `30*86400` and `7*86400` seconds before
`today_dt` (`timedelta(days=30)` and `timedelta(days=7)`), and
`mock_purchases` is the list of per-merchant-payload transaction lists
traversed by `_iter_transactions`. -/
def recommendation_stats (mock_purchases : List (List Tx)) (today_dt : ℚ) :
    RecommendationStats :=
  mock_purchases.flatten.foldl
    (accum_tx (today_dt - 30 * 86400) (today_dt - 7 * 86400)) ⟨0, 0, []⟩

/-- Python `max(items, key=lambda item: item[1])`: the first pair with the
maximal total (`src/individual_agent/individual_agent.py`, line 81). -/
def top_merchant (mts : List (String × ℚ)) : Option (String × ℚ) :=
  mts.foldl
    (fun acc p =>
      match acc with
      | none => some p
      | some q => if q.2 < p.2 then some p else acc) none

/-- Top-merchant line (`src/individual_agent/individual_agent.py`,
lines 80-84). -/
def top_line (mts : List (String × ℚ)) : String :=
  match top_merchant mts with
  | some p => "Top merchant: " ++ p.1 ++ " ($" ++ fmtComma2 p.2 ++ ")."
  | none => "Top merchant: data not yet available."

/-- Trailing weekly baseline (`src/individual_agent/individual_agent.py`,
line 86): `total_30 / 4 if total_30 else 0.0`. -/
def monthly_avg (total_30 : ℚ) : ℚ := if total_30 ≠ 0 then total_30 / 4 else 0

/-- Risk flag (`src/individual_agent/individual_agent.py`, line 87):
`total_7 > monthly_avg * 1.25 if monthly_avg else total_7 > 400`; the float
literals 1.25 and 400 are exactly representable. -/
def risk_flag (total_7 total_30 : ℚ) : Bool :=
  if monthly_avg total_30 ≠ 0 then decide (monthly_avg total_30 * (5/4) < total_7)
  else decide ((400 : ℚ) < total_7)

/-- Budget line (`src/individual_agent/individual_agent.py`, line 88). -/
def risk_line (flag : Bool) : String :=
  if flag then "Recent spend looks elevated ⚠️" else "Recent spend is within a steady band ✅"

/-- Rendered fallback text (`src/individual_agent/individual_agent.py`,
lines 90-99), with the computed values spliced into the f-string. -/
def render_recommendation (total_7 total_30 : ℚ) (topL riskL user_query : String) : String :=
  "**Purchase Recommendation:** ⏳ Wait\n**Reasoning Summary**\n- Spending: $" ++
  fmtComma2 total_7 ++ " in the past 7 days, $" ++ fmtComma2 total_30 ++
  " over the last 30 days. " ++ topL ++
  "\n- Market: Check a couple of trusted retailers for up-to-date pricing before committing.\n- Sentiment: Scan a few recent reviews and forums to make sure there’s no major red flag. 💬\n- Budget Check: " ++
  riskL ++
  "\n\n**Confidence:** Medium\n**Additional Advice:** Set a maximum price in mind before you shop for “" ++
  (if user_query.data.isEmpty then "this purchase" else user_query) ++
  "” and give yourself a 24-hour cool-off window before hitting buy. 🚦"

/-- Numeric value of an ASCII digit. -/
def digitVal (c : Char) : ℕ := c.toNat - '0'.toNat

/-- Length of a month, with Gregorian leap years, as validated by
`datetime.fromisoformat`. -/
def days_in_month (y : ℤ) (m : ℕ) : ℕ :=
  if m = 2 then (if (y % 4 = 0 ∧ y % 100 ≠ 0) ∨ y % 400 = 0 then 29 else 28)
  else if [4, 6, 9, 11].contains m then 30 else 31

/-- Days since 1970-01-01 of a Gregorian calendar date (civil-days
formula over truncating integer division). -/
def days_from_civil (y : ℤ) (m d : ℕ) : ℤ :=
  let y' : ℤ := if m ≤ 2 then y - 1 else y
  let era : ℤ := (if 0 ≤ y' then y' else y' - 399) / 400
  let yoe : ℤ := y' - era * 400
  let mp : ℤ := ((m : ℤ) + 9) % 12
  let doy : ℤ := (153 * mp + 2) / 5 + (d : ℤ) - 1
  let doe : ℤ := yoe * 365 + yoe / 4 - yoe / 100 + doy
  era * 146097 + doe - 719468

/-- Model of `datetime.fromisoformat` restricted to calendar-date strings
`YYYY-MM-DD` — the format `create_message` passes as `today`
(`datetime.utcnow().date().isoformat()`). The result is the midnight
timestamp in seconds. Richer datetime forms are outside the modelled
subset and map to `none`. -/
def iso_parse (s : String) : Option ℚ :=
  match s.data with
  | [y1, y2, y3, y4, '-', m1, m2, '-', d1, d2] =>
    if (y1.isDigit && y2.isDigit && y3.isDigit && y4.isDigit &&
        m1.isDigit && m2.isDigit && d1.isDigit && d2.isDigit) then
      let y : ℤ := (1000 * digitVal y1 + 100 * digitVal y2 + 10 * digitVal y3 + digitVal y4 : ℕ)
      let m : ℕ := 10 * digitVal m1 + digitVal m2
      let d : ℕ := 10 * digitVal d1 + digitVal d2
      if 1 ≤ m ∧ m ≤ 12 ∧ 1 ≤ d ∧ d ≤ days_in_month y m then
        some ((days_from_civil y m d * 86400 : ℤ) : ℚ)
      else none
    else none
  | _ => none

/-- Model of `_parse_datetime` (`src/individual_agent/individual_agent.py`,
lines 40-46): empty input returns `none` before any parsing; otherwise the
ISO parse is attempted and a `ValueError` becomes `none`. (The
`"Z" → "+00:00"` replacement is invisible on the modelled date-only
subset, which contains no `"Z"`.) -/
def parse_datetime (value : String) : Option ℚ :=
  if value.data.isEmpty then none else iso_parse value

/-- Model of `_build_deterministic_recommendation`
(`src/individual_agent/individual_agent.py`, lines 49-99). The wall clock
read by `datetime.now(timezone.utc)` when `today` fails to parse is passed
explicitly as `now`; timezone normalisation is the identity on rational
timestamps. -/
def build_deterministic_recommendation (mock_purchases : List (List Tx))
    (user_query today : String) (now : ℚ) : String :=
  let today_dt := (parse_datetime today).getD now
  let st := recommendation_stats mock_purchases today_dt
  render_recommendation st.total_7 st.total_30 (top_line st.merchant_totals)
    (risk_line (risk_flag st.total_7 st.total_30)) user_query

/-- One attempt configuration of the tiered executor: model name, auxiliary
MCP tool access, and wall-clock timeout in seconds. -/
structure AttemptConfig where
  model : String
  use_mcp : Bool
  timeout : ℕ
deriving DecidableEq

/-- Failure modes of one generative attempt: a timeout
(`asyncio.TimeoutError` / `APITimeoutError`) or any other raised exception. -/
inductive AttemptError
  | timedOut
  | raised
deriving DecidableEq

/-- Tier-1 attempt of `run_individual_agent`
(`src/individual_agent/individual_agent.py`, line 249): full capability. -/
def tier1_config (timeout_seconds : ℕ) : AttemptConfig :=
  ⟨"openai/gpt-5", true, timeout_seconds⟩

/-- Tier-2 budget (`src/individual_agent/individual_agent.py`, line 263):
`max(timeout_seconds // 2, 15)`. -/
def secondary_timeout (timeout_seconds : ℕ) : ℕ := max (timeout_seconds / 2) 15

/-- Tier-2 attempt of `run_individual_agent`
(`src/individual_agent/individual_agent.py`, line 265): lighter model, no
MCP tools, halved budget with a 15-second floor. -/
def tier2_config (timeout_seconds : ℕ) : AttemptConfig :=
  ⟨"openai/gpt-4.1-mini", false, secondary_timeout timeout_seconds⟩

/-- Tiered ladder of `run_individual_agent`
(`src/individual_agent/individual_agent.py`, lines 247-278): tier 1, on
timeout or exception tier 2, on a second timeout or exception the
deterministic fallback. `execute` stands for the opaque `_execute_agent`
generative call. -/
def run_individual_agent (execute : AttemptConfig → Except AttemptError String)
    (timeout_seconds : ℕ) (mock_purchases : List (List Tx))
    (user_query today : String) (now : ℚ) : String :=
  match execute (tier1_config timeout_seconds) with
  | Except.ok out => out
  | Except.error _ =>
    match execute (tier2_config timeout_seconds) with
    | Except.ok out => out
    | Except.error _ =>
      build_deterministic_recommendation mock_purchases user_query today now

/-- Evaluation helper: when `|x| * 100` is the whole number `n`, the rounded
cents of `x` are exactly `n`. -/
theorem centsOf_whole (x : ℚ) (n : ℕ) (hx : 0 ≤ x) (h : x * 100 = n) : centsOf x = n := by
  have habs : |x| * 100 = (n : ℚ) := by rw [abs_of_nonneg hx, h]
  have hfloor : ⌊|x| * 100⌋ = (n : ℤ) := by rw [habs]; exact Int.floor_natCast n
  unfold centsOf roundHalfEven
  rw [hfloor, habs]
  norm_num

/-- Word character for the regex `\b` boundary (ASCII `\w`, which covers
every string in the sources and claims). -/
def isWordChar (c : Char) : Bool := c.isAlphanum || c == '_'

/-- Match of the regex group `(\d+(?:\.\d{1,2})?)` anchored at the head of
`cs`: a maximal digit run, optionally followed by a dot and one or two
digits (greedy, as nothing follows the group in the pattern). -/
def numberAt (cs : List Char) : Option (List Char) :=
  let ds := cs.takeWhile Char.isDigit
  if ds.isEmpty then none
  else
    match cs.drop ds.length with
    | '.' :: r2 =>
      let fs := (r2.takeWhile Char.isDigit).take 2
      if fs.isEmpty then some ds else some (ds ++ '.' :: fs)
    | _ => some ds

/-- Match of `(?:\$|usd|\b)(\d+(?:\.\d{1,2})?)` (case-insensitive) at one
position: the alternatives are tried in pattern order — a literal `$`, the
letters `usd`, or a word boundary against the previous character `prev` —
each followed by the number group. -/
def matchAtPos (prev : Option Char) (cs : List Char) : Option (List Char) :=
  match cs with
  | '$' :: rest => numberAt rest
  | c1 :: c2 :: c3 :: rest =>
    if c1.toLower == 'u' && c2.toLower == 's' && c3.toLower == 'd' then
      match numberAt rest with
      | some g => some g
      | none =>
        if c1.isDigit && (match prev with | none => true | some p => !isWordChar p) then
          numberAt (c1 :: c2 :: c3 :: rest)
        else none
    else
      if c1.isDigit && (match prev with | none => true | some p => !isWordChar p) then
        numberAt (c1 :: c2 :: c3 :: rest)
      else none
  | c1 :: rest =>
    if c1.isDigit && (match prev with | none => true | some p => !isWordChar p) then
      numberAt (c1 :: rest)
    else none
  | [] => none

/-- Left-to-right scan of `re.search`: return the group of the leftmost
position at which the pattern matches. `prev` is the character before the
current position (`none` at the start of the string). -/
def scanAmount (prev : Option Char) : List Char → Option (List Char)
  | [] => none
  | c :: rest =>
    match matchAtPos prev (c :: rest) with
    | some g => some g
    | none => scanAmount (some c) rest

/-- Fractional digits of a matched group (the part after the dot). -/
def amountFracPart (g : List Char) : List Char :=
  (g.drop ((g.takeWhile Char.isDigit).length + 1)).takeWhile Char.isDigit

/-- Numerator of a matched group read as a scaled integer. -/
def amountNum (g : List Char) : ℕ :=
  ((g.takeWhile Char.isDigit) ++ amountFracPart g).foldl (fun n c => 10 * n + digitVal c) 0

/-- Denominator of a matched group: ten to the number of fractional digits. -/
def amountDen (g : List Char) : ℕ := 10 ^ (amountFracPart g).length

/-- Numeric value of a matched group, as Python `float(group)` (exact,
since the group has at most two decimal places). -/
def amountOfChars (g : List Char) : ℚ := (amountNum g : ℚ) / (amountDen g : ℚ)

/-- Model of `_extract_amount` (`src/group_task_agent/group_task_agent.py`,
lines 116-125): empty text returns `None`; otherwise commas are stripped
and the first match of `(?:\$|usd|\b)(\d+(?:\.\d{1,2})?)` (ignoring case)
is converted to a number; no match returns `None`. -/
def extract_amount (text : String) : Option ℚ :=
  if text.data.isEmpty then none
  else (scanAmount none (text.data.filter (fun c => c ≠ ','))).map amountOfChars

/-- Character before position `i`, when the scan started with previous
character `prev`. -/
def prevAtFrom (prev : Option Char) (cs : List Char) (i : ℕ) : Option Char :=
  if i = 0 then prev else cs[i - 1]?

/-- Position-indexed reading of the same pattern: the previous character at
position `i` of the scanned list. -/
def prevAt (cs : List Char) (i : ℕ) : Option Char := prevAtFrom none cs i

/-- Specification-side predicate: some position of `cs` carries a match of
the number pattern. -/
def has_number_token (cs : List Char) : Bool :=
  (List.range cs.length).any (fun i => (matchAtPos (prevAt cs i) (cs.drop i)).isSome)

/-- Per-person hint of `run_group_task_agent`
(`src/group_task_agent/group_task_agent.py`, lines 205-209): rendered with
two decimals when both amount and a positive participant count are known. -/
def per_person_hint (amount_value : Option ℚ) (participants_count : ℕ) : String :=
  match amount_value with
  | some a =>
    if 0 < participants_count then fmtFixed2 (a / participants_count)
    else "calculated after confirming participants"
  | none => "calculated after confirming participants"

/-- Tip-adjusted per-person hint of `run_group_task_agent`
(`src/group_task_agent/group_task_agent.py`, lines 210-218): fixed ×1.15
multiplier (the float literal 1.15 modelled as 23/20). -/
def per_person_tip_hint (amount_value : Option ℚ) (participants_count : ℕ) : String :=
  match amount_value with
  | some a =>
    if 0 < participants_count then fmtFixed2 (a * (23/20) / participants_count)
    else "depends on final tip"
  | none => "depends on final tip"

/-- Amount hint of `run_group_task_agent`
(`src/group_task_agent/group_task_agent.py`, line 204). -/
def amount_hint (amount_value : Option ℚ) : String :=
  match amount_value with
  | some a => "$" ++ fmtFixed2 a
  | none => "the amount mentioned"

/-- Per-person share of the no-backend fallback branch
(`src/group_task_agent/group_task_agent.py`, lines 158-164): defined only
when the amount was extracted and the participant count is non-zero. -/
def fallback_per_person (amount_value : Option ℚ) (participants_count : ℕ) : Option ℚ :=
  match amount_value with
  | some a => if participants_count ≠ 0 then some (a / participants_count) else none
  | none => none

/-- One member line of the fallback split
(`src/group_task_agent/group_task_agent.py`, lines 168-173). -/
def fallback_split_line (name : String) (per_person : Option ℚ) : String :=
  match per_person with
  | some p => "- " ++ name ++ ": $" ++ fmtFixed2 p
  | none => "- " ++ name ++ ": amount TBD"

/-- Evaluation helper for `extract_amount` on concrete inputs: the scan is
a pure character computation and the group value is computed separately. -/
theorem extract_amount_eq (text : String) (g : List Char) (v : ℚ)
    (hne : text.data.isEmpty = false)
    (hscan : scanAmount none (text.data.filter (fun c => c ≠ ',')) = some g)
    (hval : amountOfChars g = v) : extract_amount text = some v := by
  have h : extract_amount text
      = (scanAmount none (text.data.filter (fun c => c ≠ ','))).map amountOfChars := by
    unfold extract_amount
    rw [hne]
    rfl
  rw [h, hscan]
  simp [hval]

/-- Evaluation helper: fixed-precision rendering of a nonnegative value
whose cents are whole. -/
theorem fmtFixed2_of_nonneg (x : ℚ) (n : ℕ) (hx : 0 ≤ x) (h : x * 100 = n) :
    fmtFixed2 x = "" ++ toString (n / 100) ++ "." ++ pad2 (n % 100) := by
  unfold fmtFixed2
  rw [centsOf_whole x n hx h, if_neg (not_lt.mpr hx)]

/-- Evaluation helper: comma-grouped rendering of a nonnegative value whose
cents are whole. -/
theorem fmtComma2_of_nonneg (x : ℚ) (n : ℕ) (hx : 0 ≤ x) (h : x * 100 = n) :
    fmtComma2 x = "" ++ commaGroup (n / 100) ++ "." ++ pad2 (n % 100) := by
  unfold fmtComma2
  rw [centsOf_whole x n hx h, if_neg (not_lt.mpr hx)]

/-- C3 counterexample: the executed-key list of `create_message` is not
deduplicated — a decider payload naming the same agent twice yields the
same section twice. -/
theorem selected_agent_keys_not_nodup :
    selected_agent_keys ["individual", "individual"] = ["individual", "individual"]
    ∧ ¬ (selected_agent_keys ["individual", "individual"]).Nodup := by
  exact ⟨by decide, by decide⟩

/-- C3 (amended): for every decider agent-key list, the executed keys are
at most three and all valid, but duplicates are preserved rather than
removed. -/
theorem selected_agent_keys_bounded_and_valid :
    ∀ agent_keys : List String,
      (selected_agent_keys agent_keys).length ≤ 3
      ∧ (selected_agent_keys agent_keys).all (fun k => valid_agents.contains k) = true := by
  intro keys
  constructor
  · calc (selected_agent_keys keys).length
        ≤ (keys.take 3).length := List.length_filter_le _ _
      _ ≤ 3 := by simp [List.length_take]
  · exact List.all_eq_true.mpr (fun k hk => (List.mem_filter.mp hk).2)

/-- C4: the tiered executor of `run_individual_agent` returns the tier-1
output whenever tier 1 succeeds; tier 2 runs the lighter model with no MCP
tools under half the primary budget floored at 15 seconds; a tier-1
failure followed by a tier-2 success returns the tier-2 output; and two
failures return the deterministic fallback, so the ladder always
terminates with a value. -/
theorem tiered_executor_degradation :
    ∀ (execute : AttemptConfig → Except AttemptError String) (t : ℕ)
      (purchases : List (List Tx)) (q today : String) (now : ℚ),
      (∀ out, execute (tier1_config t) = Except.ok out →
        run_individual_agent execute t purchases q today now = out)
      ∧ tier2_config t = ⟨"openai/gpt-4.1-mini", false, max (t / 2) 15⟩
      ∧ (∀ e out, execute (tier1_config t) = Except.error e →
          execute (tier2_config t) = Except.ok out →
          run_individual_agent execute t purchases q today now = out)
      ∧ (∀ e1 e2, execute (tier1_config t) = Except.error e1 →
          execute (tier2_config t) = Except.error e2 →
          run_individual_agent execute t purchases q today now
            = build_deterministic_recommendation purchases q today now) := by
  intro execute t purchases q today now
  refine ⟨?_, rfl, ?_, ?_⟩
  · intro out h1
    unfold run_individual_agent
    rw [h1]
  · intro e out h1 h2
    unfold run_individual_agent
    rw [h1, h2]
  · intro e1 e2 h1 h2
    unfold run_individual_agent
    rw [h1, h2]

/-- C4 witness: with both generative tiers failing, the executor returns
the deterministic fallback. -/
theorem tiered_executor_degradation_witness :
    run_individual_agent (fun _ => Except.error AttemptError.timedOut) 60 [] "q" "" 0
      = build_deterministic_recommendation [] "q" "" 0 :=
  (tiered_executor_degradation (fun _ => Except.error AttemptError.timedOut)
      60 [] "q" "" 0).2.2.2 AttemptError.timedOut AttemptError.timedOut rfl rfl

/-- C7: with amount $120 and 3 participants, the group hints render the
per-person share "40.00" and the ×1.15 tip-adjusted share "46.00"; when
the amount or the count is unresolvable, the hint and fallback strings
state the missing piece rather than a number. -/
theorem group_split_hints :
    per_person_hint (some 120) 3 = "40.00"
    ∧ per_person_tip_hint (some 120) 3 = "46.00"
    ∧ (∀ c, per_person_hint none c = "calculated after confirming participants")
    ∧ (∀ a, per_person_hint (some a) 0 = "calculated after confirming participants")
    ∧ (∀ c, per_person_tip_hint none c = "depends on final tip")
    ∧ (∀ a, per_person_tip_hint (some a) 0 = "depends on final tip")
    ∧ amount_hint none = "the amount mentioned"
    ∧ (∀ name, fallback_split_line name none = "- " ++ name ++ ": amount TBD")
    ∧ (∀ a, fallback_per_person (some a) 0 = none)
    ∧ fallback_per_person (some 120) 3 = some 40
    ∧ extract_amount "Split $120 dinner evenly please." = some 120 := by
  have h40 : fmtFixed2 (40 : ℚ) = "" ++ toString (4000 / 100 : ℕ) ++ "." ++ pad2 (4000 % 100) :=
    fmtFixed2_of_nonneg _ 4000 (by norm_num) (by norm_num)
  have h46 : fmtFixed2 (46 : ℚ) = "" ++ toString (4600 / 100 : ℕ) ++ "." ++ pad2 (4600 % 100) :=
    fmtFixed2_of_nonneg _ 4600 (by norm_num) (by norm_num)
  refine ⟨?_, ?_, fun c => rfl, fun a => rfl, fun c => rfl, fun a => rfl, rfl, fun name => rfl,
    fun a => rfl, ?_, ?_⟩
  · unfold per_person_hint
    norm_num
    rw [h40]
    decide
  · unfold per_person_tip_hint
    norm_num
    rw [h46]
    decide
  · unfold fallback_per_person
    norm_num
  · refine extract_amount_eq _ ['1', '2', '0'] _ (by decide) (by decide) ?_
    have h1 : amountNum ['1', '2', '0'] = 120 := by decide
    have h2 : amountDen ['1', '2', '0'] = 1 := by decide
    rw [amountOfChars, h1, h2]
    norm_num

/-- C8 counterexample: a query containing "credit score" together with a
group keyword is routed to the group agent, so its tag set does not
include credit-advisory. -/
theorem credit_keyword_routing_counterexample :
    strContains (pyLower "split the bill and check my credit score") "credit score" = true
    ∧ run_decider_heuristic "split the bill and check my credit score" = some "3"
    ∧ ((digit_payload_map.lookup "3").getD ["conversational"]).contains "credit_score" = false := by
  exact ⟨by decide, by decide, by decide⟩

/-- Helper: a string matching a keyword set whose terms are all non-empty
is itself non-empty. -/
theorem matches_any_ne_empty (s : String) (terms : List String)
    (hterms : terms.all (fun t => !t.data.isEmpty) = true)
    (h : matches_any s terms = true) : s.data.isEmpty = false := by
  cases hdata : s.data with
  | nil =>
    exfalso
    obtain ⟨t, ht, hc⟩ := List.any_eq_true.mp h
    have hne := List.all_eq_true.mp hterms t ht
    unfold strContains at hc
    rw [hdata] at hc
    cases hd : t.data with
    | nil => rw [hd] at hne; simp at hne
    | cons a l => rw [hd] at hc; simp [containsSub] at hc
  | cons a l => rfl

/-- C8 (amended): a query whose lowercase text matches the credit keyword
set ("credit score", "best card", ...) and no group keyword is routed to
the credit agent, so its tag set includes credit-advisory. -/
theorem credit_keywords_route_to_credit :
    ∀ q : String,
      matches_any (pyLower q) credit_keywords = true →
      matches_any (pyLower q) group_keywords = false →
      (heuristic_route q).map
          (fun d => (digit_payload_map.lookup (pyStrip d)).getD ["conversational"])
        = some ["credit_score"] := by
  intro q hc hg
  have hne : (pyLower q).data.isEmpty = false :=
    matches_any_ne_empty _ credit_keywords (by decide) hc
  unfold heuristic_route
  simp only [hne, Bool.false_eq_true, if_false, hg, hc, if_true]
  decide

/-- C8 witness: a pure credit query is routed to the credit agent. -/
theorem credit_keywords_route_to_credit_witness :
    (heuristic_route "which is the best card for gas").map
        (fun d => (digit_payload_map.lookup (pyStrip d)).getD ["conversational"])
      = some ["credit_score"] :=
  credit_keywords_route_to_credit "which is the best card for gas" (by decide) (by decide)

/-- Helper: the handler loop is the map of the per-key outcome over the
selected keys. -/
theorem run_handlers_eq_map (run : String → Except String String) (agent_keys : List String) :
    run_handlers run agent_keys
      = (selected_agent_keys agent_keys).map
          (fun k => (k, match run k with
            | Except.ok out => pyStrip out
            | Except.error _ => apology_text)) := by
  unfold run_handlers
  generalize selected_agent_keys agent_keys = l
  have h : ∀ (l : List String) (acc : List (String × String)),
      l.foldl (fun results key =>
        results ++ [(key, match run key with
          | Except.ok out => pyStrip out
          | Except.error _ => apology_text)]) acc
        = acc ++ l.map (fun k => (k, match run k with
            | Except.ok out => pyStrip out
            | Except.error _ => apology_text)) := by
    intro l
    induction l with
    | nil => intro acc; simp
    | cons x xs ih => intro acc; simp [ih, List.append_assoc]
  simpa using h l []

/-- C1 counterexample: a query matching the group, credit, and
personal-finance keyword sets simultaneously is routed by the
short-circuiting heuristic to the group digit alone, and the composite
response has exactly one section, not three. -/
theorem triple_match_counterexample :
    matches_any (pyLower (pyStrip "lets split it, whats my credit score, should i buy it")) group_keywords = true
    ∧ matches_any (pyLower (pyStrip "lets split it, whats my credit score, should i buy it")) credit_keywords = true
    ∧ matches_any (pyLower (pyStrip "lets split it, whats my credit score, should i buy it")) individual_keywords = true
    ∧ (composite_sections "lets split it, whats my credit score, should i buy it"
          (fun _ => Except.ok "ok")).map List.length = some 1
    ∧ ¬ ((composite_sections "lets split it, whats my credit score, should i buy it"
          (fun _ => Except.ok "ok")).map List.length = some 3) := by
  exact ⟨by decide, by decide, by decide, by decide, by decide⟩

/-- C1 (amended): for every query matching all three deterministic keyword
sets and every handler behaviour, the deterministic pass short-circuits at
the group category and the composite response consists of exactly the
single group-coordination section. -/
theorem triple_match_single_group_section :
    ∀ (q : String) (run : String → Except String String),
      matches_any (pyLower (pyStrip q)) group_keywords = true →
      matches_any (pyLower (pyStrip q)) credit_keywords = true →
      matches_any (pyLower (pyStrip q)) individual_keywords = true →
      (composite_sections q run).map (fun sections => sections.map Prod.fst)
        = some ["group_task"] := by
  intro q run hg hc hi
  have hne : (pyLower (pyStrip q)).data.isEmpty = false :=
    matches_any_ne_empty _ group_keywords (by decide) hg
  have hl : (List.lookup (pyStrip "3") digit_payload_map).getD ["conversational"]
      = ["group_task"] := by decide
  have hsel : selected_agent_keys ["group_task"] = ["group_task"] := by decide
  unfold composite_sections run_decider_heuristic heuristic_route
  simp only [hne, Bool.false_eq_true, if_false, hg, if_true, Option.map_some,
    Option.map_some']
  rw [hl, run_handlers_eq_map, hsel]
  simp

/-- C1 witness: a concrete triple-matching query yields the single
group-coordination section. -/
theorem triple_match_single_group_section_witness :
    (composite_sections "we should settle up, best card, can i buy it"
        (fun _ => Except.error "down")).map (fun sections => sections.map Prod.fst)
      = some ["group_task"] :=
  triple_match_single_group_section "we should settle up, best card, can i buy it"
    (fun _ => Except.error "down") (by decide) (by decide) (by decide)

/-- Helper: joining a non-empty section list starts with its first
element. -/
theorem join_sep_cons_data (sep x : String) (xs : List String) :
    ∃ r, (join_sep sep (x :: xs)).data = x.data ++ r := by
  cases xs with
  | nil => exact ⟨[], by simp [join_sep]⟩
  | cons y ys =>
    refine ⟨sep.data ++ (join_sep sep (y :: ys)).data, ?_⟩
    simp [join_sep, String.data_append, List.append_assoc]

/-- Helper: the composite answer text is never the empty string. -/
theorem agent_output_ne_empty (run : String → Except String String)
    (agent_keys : List String) : agent_output run agent_keys ≠ "" := by
  unfold agent_output
  cases h : run_handlers run agent_keys with
  | nil =>
    simp only [h, List.isEmpty_nil, if_true]
    decide
  | cons r rs =>
    simp only [h, List.isEmpty_cons, Bool.false_eq_true, if_false]
    unfold agent_sections
    rw [List.map_cons]
    obtain ⟨rest, hdata⟩ := join_sep_cons_data "\n\n"
      ("**" ++ display_name r.1 ++ ":**\n" ++ r.2)
      ((rs.map (fun p => "**" ++ display_name p.1 ++ ":**\n" ++ p.2)))
    intro hcontra
    have hd := congrArg String.data hcontra
    rw [hdata] at hd
    simp [String.data_append] at hd

/-- C2: for every `@advisor` message, every decider key list, and every
handler behaviour, the produced reply is never empty, and the handler loop
isolates failures: each selected key contributes its own stripped output
on success and the short apology exactly when its handler raised, leaving
the other keys' sections untouched. -/
theorem advisor_reply_contains_handler_failures :
    ∀ (content : String) (agent_keys : List String) (run : String → Except String String),
      (∀ reply, create_message_ai_reply content agent_keys run = some reply → reply ≠ "")
      ∧ run_handlers run agent_keys
          = (selected_agent_keys agent_keys).map
              (fun k => (k, match run k with
                | Except.ok out => pyStrip out
                | Except.error _ => apology_text)) := by
  intro content agent_keys run
  refine ⟨?_, run_handlers_eq_map run agent_keys⟩
  intro reply h
  unfold create_message_ai_reply at h
  by_cases hpre : List.isPrefixOf "@advisor".data (pyLower (pyStrip content)).data = true
  · rw [if_pos hpre] at h
    have hr := Option.some.inj h
    by_cases hq : (pyStrip ⟨(pyStrip content).data.drop 8⟩).data.isEmpty = true
    · rw [if_pos hq] at hr
      rw [← hr]
      decide
    · rw [if_neg hq] at hr
      rw [← hr]
      exact agent_output_ne_empty run agent_keys
  · rw [if_neg hpre] at h
    exact absurd h (by simp)

/-- C2 witness: a failing handler contributes the apology section while
the other selected handler renders normally. -/
theorem advisor_reply_contains_handler_failures_witness :
    run_handlers
        (fun k => if k = "individual" then Except.error "boom" else Except.ok " hi ")
        ["individual", "conversational"]
      = [("individual", apology_text), ("conversational", "hi")] := by
  rw [(advisor_reply_contains_handler_failures "@advisor help" ["individual", "conversational"]
    (fun k => if k = "individual" then Except.error "boom" else Except.ok " hi ")).2]
  decide

/-- Scenario records for C5: $400 over the last 30 days at one merchant,
$130 of it within the last 7 days, anchored at `today_dt = 0`. -/
def c5_scenario : List (List Tx) :=
  [[⟨some (-259200), 130, [], some "M"⟩, ⟨some (-864000), 90, [], some "M"⟩,
    ⟨some (-1468800), 90, [], some "M"⟩, ⟨some (-2073600), 90, [], some "M"⟩]]

/-- C5: the baseline always equals the 30-day sum divided by four; the
risk flag compares the 7-day sum against baseline × 1.25 exactly when the
baseline is non-zero and against the absolute threshold 400 otherwise; and
the 400/130 scenario sets the flag. -/
theorem risk_baseline_characterisation :
    ∀ t7 t30 : ℚ,
      monthly_avg t30 = t30 / 4
      ∧ (monthly_avg t30 ≠ 0 → (risk_flag t7 t30 = true ↔ monthly_avg t30 * (5/4) < t7))
      ∧ (monthly_avg t30 = 0 → (risk_flag t7 t30 = true ↔ (400 : ℚ) < t7))
      ∧ (recommendation_stats c5_scenario 0).total_30 = 400
      ∧ (recommendation_stats c5_scenario 0).total_7 = 130
      ∧ risk_flag (recommendation_stats c5_scenario 0).total_7
          (recommendation_stats c5_scenario 0).total_30 = true := by
  intro t7 t30
  have hst : recommendation_stats c5_scenario 0 = ⟨400, 130, [("M", 400)]⟩ := by
    norm_num [c5_scenario, recommendation_stats, accum_tx, tx_amount, tx_merchant,
      update_merchant_total]
  refine ⟨?_, ?_, ?_, ?_, ?_, ?_⟩
  · rcases eq_or_ne t30 0 with h | h
    · simp [monthly_avg, h]
    · simp [monthly_avg, h]
  · intro h
    unfold risk_flag
    rw [if_pos h]
    simp
  · intro h
    unfold risk_flag
    rw [if_neg (fun hc => hc h)]
    simp
  · rw [hst]
  · rw [hst]
  · rw [hst]
    norm_num [risk_flag, monthly_avg]

/-- C5 witness: at the scenario sums, the multiplicative branch applies
and 130 > 125 sets the flag. -/
theorem risk_baseline_characterisation_witness : risk_flag 130 400 = true :=
  ((risk_baseline_characterisation 130 400).2.1 (by norm_num [monthly_avg])).mpr
    (by norm_num [monthly_avg])

set_option maxRecDepth 20000 in
/-- C6: with no historical records the fallback computes zero sums, a zero
baseline, no risk (absolute-threshold branch), the no-data top-merchant
line, and — for every query and every `today` string, parseable or not —
renders the fixed text with those values; the function is total, so it
never raises. -/
theorem empty_records_fallback :
    ∀ (user_query today : String) (now : ℚ),
      recommendation_stats [] ((parse_datetime today).getD now) = ⟨0, 0, []⟩
      ∧ monthly_avg (0 : ℚ) = 0
      ∧ risk_flag 0 0 = false
      ∧ top_line [] = "Top merchant: data not yet available."
      ∧ build_deterministic_recommendation [] user_query today now
          = "**Purchase Recommendation:** ⏳ Wait\n**Reasoning Summary**\n- Spending: $0.00 in the past 7 days, $0.00 over the last 30 days. Top merchant: data not yet available.\n- Market: Check a couple of trusted retailers for up-to-date pricing before committing.\n- Sentiment: Scan a few recent reviews and forums to make sure there’s no major red flag. 💬\n- Budget Check: Recent spend is within a steady band ✅\n\n**Confidence:** Medium\n**Additional Advice:** Set a maximum price in mind before you shop for “"
            ++ (if user_query.data.isEmpty then "this purchase" else user_query)
            ++ "” and give yourself a 24-hour cool-off window before hitting buy. 🚦" := by
  intro user_query today now
  have hrisk : risk_flag 0 0 = false := by norm_num [risk_flag, monthly_avg]
  have hf : fmtComma2 (0 : ℚ) = "" ++ commaGroup (0 / 100 : ℕ) ++ "." ++ pad2 (0 % 100) :=
    fmtComma2_of_nonneg 0 0 le_rfl (by norm_num)
  refine ⟨rfl, by norm_num [monthly_avg], hrisk, rfl, ?_⟩
  show render_recommendation 0 0 (top_line []) (risk_line (risk_flag 0 0)) user_query = _
  rw [hrisk]
  unfold render_recommendation risk_line top_line top_merchant
  rw [hf]
  rfl

/-- C9 counterexample: on an unparseable `today` the fallback reads the
wall clock, so the same `(records, today)` input rendered at two different
clock instants produces different bytes. -/
theorem fallback_clock_dependence_counterexample :
    parse_datetime "" = none
    ∧ build_deterministic_recommendation [[⟨some 0, 5, [], some "Shop"⟩]] "q" "" 0
        ≠ build_deterministic_recommendation [[⟨some 0, 5, [], some "Shop"⟩]] "q" "" 8640000 := by
  refine ⟨by decide, ?_⟩
  have h5 : fmtComma2 (5 : ℚ) = "" ++ commaGroup (500 / 100 : ℕ) ++ "." ++ pad2 (500 % 100) :=
    fmtComma2_of_nonneg 5 500 (by norm_num) (by norm_num)
  have h0 : fmtComma2 (0 : ℚ) = "" ++ commaGroup (0 / 100 : ℕ) ++ "." ++ pad2 (0 % 100) :=
    fmtComma2_of_nonneg 0 0 le_rfl (by norm_num)
  have hst1 : recommendation_stats [[⟨some 0, 5, [], some "Shop"⟩]] 0 = ⟨5, 5, [("Shop", 5)]⟩ := by
    norm_num [recommendation_stats, accum_tx, tx_amount, tx_merchant, update_merchant_total]
  have hst2 : recommendation_stats [[⟨some 0, 5, [], some "Shop"⟩]] 8640000 = ⟨0, 0, []⟩ := by
    norm_num [recommendation_stats, accum_tx, tx_amount, tx_merchant, update_merchant_total]
  have hr1 : risk_flag 5 5 = true := by norm_num [risk_flag, monthly_avg]
  have hb1 : build_deterministic_recommendation [[⟨some 0, 5, [], some "Shop"⟩]] "q" "" 0
      = render_recommendation 5 5 (top_line [("Shop", 5)]) (risk_line true) "q" := by
    unfold build_deterministic_recommendation
    simp only [show (parse_datetime "").getD (0 : ℚ) = 0 from rfl, hst1, hr1]
  have hb2 : build_deterministic_recommendation [[⟨some 0, 5, [], some "Shop"⟩]] "q" "" 8640000
      = render_recommendation 0 0 (top_line []) (risk_line (risk_flag 0 0)) "q" := by
    unfold build_deterministic_recommendation
    simp only [show (parse_datetime "").getD (8640000 : ℚ) = 8640000 from rfl, hst2]
  have hr2 : risk_flag 0 0 = false := by norm_num [risk_flag, monthly_avg]
  rw [hb1, hb2, hr2]
  unfold render_recommendation risk_line top_line top_merchant
  rw [h5, h0]
  decide

/-- C9 (amended): whenever the `today` string parses, the fallback output
is a pure function of `(records, today)` — byte-identical across calls
regardless of the wall clock; only an unparseable `today` makes the output
clock-dependent. -/
theorem fallback_output_deterministic_for_parseable_today :
    ∀ (purchases : List (List Tx)) (q today : String) (now₁ now₂ : ℚ),
      parse_datetime today ≠ none →
      build_deterministic_recommendation purchases q today now₁
        = build_deterministic_recommendation purchases q today now₂ := by
  intro p q today n1 n2 h
  obtain ⟨t, ht⟩ := Option.ne_none_iff_exists'.mp h
  unfold build_deterministic_recommendation
  rw [ht]
  rfl

/-- C9 witness: with the parseable date 2025-11-08 the output does not
depend on the clock. -/
theorem fallback_output_deterministic_witness :
    build_deterministic_recommendation [] "x" "2025-11-08" 0
      = build_deterministic_recommendation [] "x" "2025-11-08" 1 :=
  fallback_output_deterministic_for_parseable_today [] "x" "2025-11-08" 0 1 (by decide)

/-- Index shift for the previous-character reading. -/
theorem prevAtFrom_succ (prev : Option Char) (ch : Char) (t : List Char) (i : ℕ) :
    prevAtFrom prev (ch :: t) (i + 1) = prevAtFrom (some ch) t i := by
  cases i with
  | zero => simp [prevAtFrom]
  | succ j => simp [prevAtFrom]

/-- The left-to-right scan returns `none` exactly when the pattern matches
at no position. -/
theorem scanAmount_eq_none_iff (prev : Option Char) (cs : List Char) :
    scanAmount prev cs = none
      ↔ ∀ i, i < cs.length → (matchAtPos (prevAtFrom prev cs i) (cs.drop i)).isSome = false := by
  induction cs generalizing prev with
  | nil => simp [scanAmount]
  | cons c t ih =>
    unfold scanAmount
    cases hm : matchAtPos prev (c :: t) with
    | some g =>
      constructor
      · intro h
        exact absurd h (by simp)
      · intro h
        have h0 := h 0 (by simp)
        rw [show prevAtFrom prev (c :: t) 0 = prev from rfl,
          show (c :: t).drop 0 = c :: t from rfl, hm] at h0
        simp at h0
    | none =>
      rw [ih (some c)]
      constructor
      · intro h i hi
        cases i with
        | zero =>
          rw [show prevAtFrom prev (c :: t) 0 = prev from rfl,
            show (c :: t).drop 0 = c :: t from rfl, hm]
          rfl
        | succ j =>
          rw [prevAtFrom_succ prev c t j, List.drop_succ_cons]
          exact h j (Nat.lt_of_succ_lt_succ hi)
      · intro h j hj
        have hnext := h (j + 1) (Nat.succ_lt_succ hj)
        rw [prevAtFrom_succ prev c t j, List.drop_succ_cons] at hnext
        exact hnext

/-- Characterisation of a missing match: `_extract_amount` returns `None`
exactly when no position of the comma-stripped text carries a number
matchable by the pattern. -/
theorem extract_amount_eq_none_iff (text : String) :
    extract_amount text = none
      ↔ has_number_token (text.data.filter (fun c => c ≠ ',')) = false := by
  unfold extract_amount has_number_token
  by_cases h : text.data.isEmpty = true
  · rw [if_pos h, List.isEmpty_iff.mp h]
    simp
  · rw [if_neg h, Option.map_eq_none', scanAmount_eq_none_iff]
    unfold prevAt
    constructor
    · intro hall
      rw [List.any_eq_false]
      intro i hi
      rw [Bool.not_eq_true]
      exact hall i (List.mem_range.mp hi)
    · intro hall i hi
      have hx := List.any_eq_false.mp hall i (List.mem_range.mpr hi)
      rw [Bool.not_eq_true] at hx
      exact hx

/-- C10: the amount extractor strips commas and returns the first match of
an integer with an optional one-or-two-digit decimal part, the `$`/`usd`
prefix being optional so that any bare number qualifies; it returns `None`
exactly when no position of the text matches; consequently a participant
count appearing before the dollar amount is returned as the amount. -/
theorem extract_amount_characterisation :
    (∀ text : String,
      extract_amount text = none
        ↔ has_number_token (text.data.filter (fun c => c ≠ ',')) = false)
    ∧ extract_amount "3 people split the $120 bill" = some 3
    ∧ extract_amount "pay usd20 now, usd 1,5 later" = some 20
    ∧ extract_amount "we owe about 45.50 total" = some (91/2) := by
  refine ⟨extract_amount_eq_none_iff, ?_, ?_, ?_⟩
  · refine extract_amount_eq _ ['3'] _ (by decide) (by decide) ?_
    have h1 : amountNum ['3'] = 3 := by decide
    have h2 : amountDen ['3'] = 1 := by decide
    rw [amountOfChars, h1, h2]
    norm_num
  · refine extract_amount_eq _ ['2', '0'] _ (by decide) (by decide) ?_
    have h1 : amountNum ['2', '0'] = 20 := by decide
    have h2 : amountDen ['2', '0'] = 1 := by decide
    rw [amountOfChars, h1, h2]
    norm_num
  · refine extract_amount_eq _ ['4', '5', '.', '5', '0'] _ (by decide) (by decide) ?_
    have h1 : amountNum ['4', '5', '.', '5', '0'] = 4550 := by decide
    have h2 : amountDen ['4', '5', '.', '5', '0'] = 100 := by decide
    rw [amountOfChars, h1, h2]
    norm_num
